import Mathlib

/-!
# Verification of the MYCOFEESTORE order-and-payment backend

Shallow embedding of the FastAPI backend (`src/main.py`, `src/backend/main.py`):
the SQLite `orders` table becomes a list of rows, the route handlers become
state-passing functions, Python's unbounded ints become `Int`/`Nat`, and the
signature check is a full executable translation of
`hmac.new(secret, payload, hashlib.sha256).hexdigest()` (HMAC-SHA256 over the
UTF-8 bytes, hex-encoded lowercase).
-/

namespace Myco

/-! ## Bytes and UTF-8

Python hashes the UTF-8 encoding of the involved strings
(`payload.encode("utf-8")`, `KEY_SECRET.encode("utf-8")`).  Bytes are `Nat`s
below 256. -/

/-- UTF-8 encoding of a single Unicode code point, as a list of bytes. -/
def utf8EncodeCodePoint (c : Nat) : List Nat :=
  if c < 0x80 then [c]
  else if c < 0x800 then
    [0xC0 ||| (c >>> 6), 0x80 ||| (c &&& 0x3F)]
  else if c < 0x10000 then
    [0xE0 ||| (c >>> 12), 0x80 ||| ((c >>> 6) &&& 0x3F), 0x80 ||| (c &&& 0x3F)]
  else
    [0xF0 ||| (c >>> 18), 0x80 ||| ((c >>> 12) &&& 0x3F),
     0x80 ||| ((c >>> 6) &&& 0x3F), 0x80 ||| (c &&& 0x3F)]

/-- The UTF-8 bytes of a string, as Python's `str.encode("utf-8")` yields. -/
def strBytes (s : String) : List Nat :=
  s.data.flatMap (fun c => utf8EncodeCodePoint c.toNat)

/-! ## SHA-256 (FIPS 180-4), executable over byte lists -/

/-- Truncation to a 32-bit word. -/
def w32 (n : Nat) : Nat := n % 4294967296

/-- Right rotation of a 32-bit word. -/
def rotr (x n : Nat) : Nat := w32 ((x >>> n) ||| (x <<< (32 - n)))

/-- The 64 SHA-256 round constants of FIPS 180-4 (the first 32 bits of the
fractional parts of the cube roots of the first 64 primes), in decimal. -/
def shaK : List Nat :=
  [1116352408, 1899447441, 3049323471, 3921009573, 961987163,
   1508970993, 2453635748, 2870763221, 3624381080, 310598401,
   607225278, 1426881987, 1925078388, 2162078206, 2614888103,
   3248222580, 3835390401, 4022224774, 264347078, 604807628,
   770255983, 1249150122, 1555081692, 1996064986, 2554220882,
   2821834349, 2952996808, 3210313671, 3336571891, 3584528711,
   113926993, 338241895, 666307205, 773529912, 1294757372,
   1396182291, 1695183700, 1986661051, 2177026350, 2456956037,
   2730485921, 2820302411, 3259730800, 3345764771, 3516065817,
   3600352804, 4094571909, 275423344, 430227734, 506948616,
   659060556, 883997877, 958139571, 1322822218, 1537002063,
   1747873779, 1955562222, 2024104815, 2227730452, 2361852424,
   2428436474, 2756734187, 3204031479, 3329325298]

/-- The SHA-256 initial hash value of FIPS 180-4 (the first 32 bits of the
fractional parts of the square roots of the first 8 primes), in decimal. -/
def shaH0 : List Nat :=
  [1779033703, 3144134277, 1013904242, 2773480762, 1359893119,
   2600822924, 528734635, 1541459225]

/-- Big-endian byte encoding of `n` on `k` bytes. -/
def beBytes (k n : Nat) : List Nat :=
  (List.range k).map (fun i => (n >>> (8 * (k - 1 - i))) % 256)

/-- SHA-256 padding: append `0x80`, zeros, then the 64-bit big-endian bit
length, so the total length is a multiple of 64 bytes. -/
def padMessage (msg : List Nat) : List Nat :=
  let len := msg.length
  let zeros := (64 - ((len + 9) % 64)) % 64
  msg ++ [0x80] ++ List.replicate zeros 0 ++ beBytes 8 (8 * len)

/-- Group bytes into big-endian 32-bit words (four bytes per word). -/
def toWords : List Nat → List Nat
  | a :: b :: c :: d :: rest =>
      ((a <<< 24) ||| (b <<< 16) ||| (c <<< 8) ||| d) :: toWords rest
  | _ => []

/-- Extend 16 message words to the 64-entry message schedule. -/
def schedule (ws : List Nat) : List Nat :=
  (List.range 48).foldl
    (fun w t =>
      let i := t + 16
      let x15 := w.getD (i - 15) 0
      let x2  := w.getD (i - 2) 0
      let s0 := (rotr x15 7) ^^^ (rotr x15 18) ^^^ (x15 >>> 3)
      let s1 := (rotr x2 17) ^^^ (rotr x2 19) ^^^ (x2 >>> 10)
      w ++ [w32 (w.getD (i - 16) 0 + s0 + w.getD (i - 7) 0 + s1)])
    ws

/-- The eight 32-bit working variables of the compression function. -/
structure Hash8 where
  a : Nat
  b : Nat
  c : Nat
  d : Nat
  e : Nat
  f : Nat
  g : Nat
  h : Nat
deriving Repr, DecidableEq

/-- One SHA-256 round, for round constant `k` and schedule word `w`. -/
def round (st : Hash8) (kw : Nat × Nat) : Hash8 :=
  let S1 := (rotr st.e 6) ^^^ (rotr st.e 11) ^^^ (rotr st.e 25)
  let ch := (st.e &&& st.f) ^^^ ((st.e ^^^ 0xffffffff) &&& st.g)
  let temp1 := w32 (st.h + S1 + ch + kw.1 + kw.2)
  let S0 := (rotr st.a 2) ^^^ (rotr st.a 13) ^^^ (rotr st.a 22)
  let maj := (st.a &&& st.b) ^^^ (st.a &&& st.c) ^^^ (st.b &&& st.c)
  let temp2 := w32 (S0 + maj)
  { a := w32 (temp1 + temp2), b := st.a, c := st.b, d := st.c,
    e := w32 (st.d + temp1), f := st.e, g := st.f, h := st.g }

/-- Compress one 512-bit block (given as 16 words) into the running hash. -/
def compress (hs : List Nat) (block : List Nat) : List Nat :=
  let ws := schedule block
  let st0 : Hash8 :=
    { a := hs.getD 0 0, b := hs.getD 1 0, c := hs.getD 2 0, d := hs.getD 3 0,
      e := hs.getD 4 0, f := hs.getD 5 0, g := hs.getD 6 0, h := hs.getD 7 0 }
  let st := (shaK.zip ws).foldl round st0
  [w32 (hs.getD 0 0 + st.a), w32 (hs.getD 1 0 + st.b),
   w32 (hs.getD 2 0 + st.c), w32 (hs.getD 3 0 + st.d),
   w32 (hs.getD 4 0 + st.e), w32 (hs.getD 5 0 + st.f),
   w32 (hs.getD 6 0 + st.g), w32 (hs.getD 7 0 + st.h)]

/-- Split a word list into 16-word blocks; the fuel argument (instantiated
with the list length, which bounds the number of blocks) makes the recursion
structural so the kernel can evaluate it. -/
def toBlocksFuel : Nat → List Nat → List (List Nat)
  | 0, ws => [ws.take 16]
  | n + 1, ws =>
      if ws.length ≤ 16 then [ws.take 16]
      else ws.take 16 :: toBlocksFuel n (ws.drop 16)

/-- Split a word list into 16-word blocks. -/
def toBlocks (ws : List Nat) : List (List Nat) :=
  toBlocksFuel ws.length ws

/-- SHA-256 of a byte list, as 32 digest bytes. -/
def sha256 (msg : List Nat) : List Nat :=
  let blocks := toBlocks (toWords (padMessage msg))
  (blocks.foldl compress shaH0).flatMap (beBytes 4)

/-- Lowercase hex digit for a value below 16. -/
def hexDigitChar (n : Nat) : Char :=
  if n < 10 then Char.ofNat (48 + n) else Char.ofNat (87 + n)

/-- Two lowercase hex digits of one byte. -/
def byteHex (b : Nat) : String :=
  String.mk [hexDigitChar (b / 16), hexDigitChar (b % 16)]

/-- Lowercase hex encoding of a byte list, as `hexdigest()` yields. -/
def bytesToHex (bs : List Nat) : String :=
  String.join (bs.map byteHex)

/-- HMAC-SHA256 (RFC 2104) of a message under a key, as 32 digest bytes. -/
def hmacSha256 (key msg : List Nat) : List Nat :=
  let k0 := if key.length > 64 then sha256 key else key
  let k1 := k0 ++ List.replicate (64 - k0.length) 0
  let ipadKey := k1.map (fun b => b ^^^ 0x36)
  let opadKey := k1.map (fun b => b ^^^ 0x5c)
  sha256 (opadKey ++ sha256 (ipadKey ++ msg))

/-- Hex digest `hmac.new(key.encode("utf-8"), msg.encode("utf-8"), hashlib.sha256).hexdigest()`. -/
def hmacSha256Hex (key msg : String) : String :=
  bytesToHex (hmacSha256 (strBytes key) (strBytes msg))

/-! ## Data model

One SQLite table `orders`; a row per order, as created by `init_db`.  The
store is the list of rows in rowid (insertion) order.  `TEXT` columns that
are nullable become `Option String`; Python's unbounded request ints become
`Int`. -/

/-- A FastAPI `HTTPException`, carrying the HTTP status code and detail text. -/
structure HTTPException where
  status_code : Nat
  detail : String
deriving DecidableEq, Repr

/-- One row of the `orders` table. -/
structure OrderRow where
  id : Nat
  razorpay_order_id : String
  razorpay_payment_id : Option String
  razorpay_signature : Option String
  product : String
  qty : Int
  amount_paise : Int
  customer_name : String
  customer_email : String
  customer_phone : String
  delivery_address : String
  status : String
  created_at : String
  verified_at : Option String
deriving DecidableEq, Repr

/-- The `orders` table, rows in insertion order. -/
abbrev Store := List OrderRow

/-- Body of `POST /api/create-order`. -/
structure CreateOrderRequest where
  product : String
  qty : Int
  amount_paise : Int
  customer_name : String
  customer_email : String
  customer_phone : String
  delivery_address : String
deriving DecidableEq, Repr

/-- Body of `POST /api/verify-payment`. -/
structure VerifyPaymentRequest where
  razorpay_order_id : String
  razorpay_payment_id : String
  razorpay_signature : String
deriving DecidableEq, Repr

/-- Success body of `POST /api/create-order`. -/
structure CreateOrderResponse where
  order_id : String
  amount_paise : Int
  currency : String
  key_id : String
deriving DecidableEq, Repr

/-- Success body of `POST /api/verify-payment`. -/
structure VerifyResponse where
  status : String
  payment_id : String
deriving DecidableEq, Repr

/-! ## Store operations -/

/-- The error SQLite raises on a UNIQUE-constraint violation
(`sqlite3.IntegrityError`), the conflict error of the store contract. -/
inductive DBError where
  | integrityError
deriving DecidableEq, Repr

/-- The next AUTOINCREMENT id: one more than the largest id ever used (no row
is ever deleted, so the largest id present). -/
def nextId (s : Store) : Nat := (s.map OrderRow.id).foldl max 0 + 1

/-- The row the INSERT of `create_order` writes: request fields plus the
column defaults `status='created'`, `created_at=now`, NULL payment fields. -/
def newRow (store : Store) (oid : String) (req : CreateOrderRequest)
    (now : String) : OrderRow :=
  { id := nextId store, razorpay_order_id := oid, razorpay_payment_id := none,
    razorpay_signature := none, product := req.product, qty := req.qty,
    amount_paise := req.amount_paise, customer_name := req.customer_name,
    customer_email := req.customer_email, customer_phone := req.customer_phone,
    delivery_address := req.delivery_address, status := "created",
    created_at := now, verified_at := none }

/-- The `INSERT INTO orders ...` of `create_order`: fails on a duplicate
`razorpay_order_id` (UNIQUE constraint, rolled back, store unchanged),
otherwise appends `newRow`. -/
def insertOrder (store : Store) (oid : String) (req : CreateOrderRequest)
    (now : String) : Store × Except DBError Nat :=
  if store.any (fun r => r.razorpay_order_id == oid) then
    (store, .error .integrityError)
  else
    (store ++ [newRow store oid req now], .ok (nextId store))

/-! ## Route handlers -/

/-- Outcome of the gateway HTTP call in `create_order`: either an HTTP
response (status code, body text, and the `id` field of the parsed JSON body),
or a raised exception with its message. -/
inductive GatewayOutcome where
  | response (status_code : Nat) (text : String) (json_id : String)
  | exn (msg : String)
deriving DecidableEq, Repr

/-- Handler for `POST /api/create-order` (the httpx variant of `src/main.py`): credential
check (`not KEY_ID or not KEY_SECRET`, empty string being falsy), then qty
check, then amount check; then the gateway call, whose non-200 response or
exception yields a 502 without touching the store; on 200 the row is
inserted.  An insert that violates the UNIQUE constraint raises an uncaught
`sqlite3.IntegrityError`, which FastAPI surfaces as a 500 Internal Server
Error with the transaction rolled back. -/
def create_order (key_id key_secret : String) (req : CreateOrderRequest)
    (gw : GatewayOutcome) (now : String) (store : Store) :
    Store × Except HTTPException CreateOrderResponse :=
  if key_id == "" || key_secret == "" then
    (store, .error ⟨500, "Razorpay credentials missing in environment variables"⟩)
  else if req.qty < 1 || req.qty > 20 then
    (store, .error ⟨400, "Quantity must be between 1 and 20"⟩)
  else if req.amount_paise ≤ 0 then
    (store, .error ⟨400, "Invalid amount"⟩)
  else
    match gw with
    | .exn msg => (store, .error ⟨502, "Razorpay order creation failed: " ++ msg⟩)
    | .response code text oid =>
        if code != 200 then
          (store, .error ⟨502, "Razorpay error: " ++ text⟩)
        else
          match insertOrder store oid req now with
          | (store1, .ok _) =>
              (store1, .ok { order_id := oid, amount_paise := req.amount_paise,
                             currency := "INR", key_id := key_id })
          | (store1, .error _) =>
              (store1, .error ⟨500, "Internal Server Error"⟩)

/-- Functional behaviour of Python's `hmac.compare_digest`: equality of the
two strings.  (Its constant-time execution is a timing property of the
implementation, with no further functional content.) -/
def compare_digest (a b : String) : Bool := a == b

/-- The row transformation of the `UPDATE orders SET ... WHERE
razorpay_order_id = ?` in `verify_payment`: a matching row gets the supplied
payment id and signature, status `paid` and the verification timestamp; any
other row is untouched. -/
def markPaid (req : VerifyPaymentRequest) (now : String) (r : OrderRow) :
    OrderRow :=
  if r.razorpay_order_id == req.razorpay_order_id then
    { r with razorpay_payment_id := some req.razorpay_payment_id,
             razorpay_signature := some req.razorpay_signature,
             status := "paid", verified_at := some now }
  else r

/-- Handler for `POST /api/verify-payment`: recomputes
`HMAC_SHA256(KEY_SECRET, order_id ++ "|" ++ payment_id)` hex-encoded, compares
it to the supplied signature with `hmac.compare_digest`, raises a 400 on
mismatch, and otherwise runs the UPDATE (matching zero or more rows — the
handler never checks the row count) and returns the verified response. -/
def verify_payment (key_secret : String) (req : VerifyPaymentRequest)
    (now : String) (store : Store) :
    Store × Except HTTPException VerifyResponse :=
  let payload := req.razorpay_order_id ++ "|" ++ req.razorpay_payment_id
  let expected_sig := hmacSha256Hex key_secret payload
  if compare_digest expected_sig req.razorpay_signature then
    (store.map (markPaid req now),
     .ok { status := "verified", payment_id := req.razorpay_payment_id })
  else
    (store, .error ⟨400, "Payment verification failed — invalid signature"⟩)

/-- Handler for `GET /api/orders`: `SELECT * FROM orders ORDER BY created_at DESC LIMIT ?`
— a read-only query returning at most `limit` rows, most recent first. -/
def list_orders (limit : Nat) (store : Store) : List OrderRow :=
  (store.mergeSort (fun a b => decide (b.created_at ≤ a.created_at))).take limit

/-- Handler for `GET /api/orders/` with an order id: `SELECT * FROM orders WHERE
razorpay_order_id = ?` — the first matching row, or a 404. -/
def get_order (order_id : String) (store : Store) :
    Except HTTPException OrderRow :=
  match store.find? (fun r => r.razorpay_order_id == order_id) with
  | some r => .ok r
  | none => .error ⟨404, "Order not found"⟩

/-! ## Reachability and invariants -/

/-- One mutating request against the store: the store component of a
`create_order` or `verify_payment` call (error branches return the store
unchanged; `list_orders` and `get_order` are read-only functions of the store
and produce no successor state). -/
inductive Step : Store → Store → Prop where
  | create (key_id key_secret : String) (req : CreateOrderRequest)
      (gw : GatewayOutcome) (now : String) (s : Store) :
      Step s (create_order key_id key_secret req gw now s).1
  | verify (key_secret : String) (req : VerifyPaymentRequest) (now : String)
      (s : Store) :
      Step s (verify_payment key_secret req now s).1

/-- Store states reachable from the empty table `init_db` creates. -/
inductive Reachable : Store → Prop where
  | init : Reachable []
  | step {s s' : Store} : Reachable s → Step s s' → Reachable s'

/-- Row invariant: status is `created` or `paid`, and a paid row has non-null
payment id, signature and verification time. -/
def rowInv (r : OrderRow) : Bool :=
  (r.status == "created" || r.status == "paid") &&
  (!(r.status == "paid") ||
    (r.razorpay_payment_id.isSome && r.razorpay_signature.isSome &&
     r.verified_at.isSome))

/-- Store invariant: every row satisfies `rowInv`. -/
def storeInv (s : Store) : Bool := s.all rowInv

/-! ## Test vectors

The FIPS 180-4 example digest and the Python `hmac` digest of the spec's
signature-check vector, both evaluated by the kernel. -/

set_option maxRecDepth 10000 in
example :
    bytesToHex (sha256 (strBytes "abc")) =
      "ba7816bf8f01cfea414140de5dae2223b00361a396177a9cb410ff61f20015ad" := by
  decide

set_option maxRecDepth 10000 in
example :
    hmacSha256Hex "secret" "order_1|pay_1" =
      "52115a0d3400de9e86aade1f1b6eba9e8974604f4e267a9e9a16633a4c8dd2cb" := by
  decide

/-! ## Helper lemmas -/

lemma beBytes_length (k n : Nat) : (beBytes k n).length = k := by
  simp [beBytes]

lemma compress_length (hs block : List Nat) : (compress hs block).length = 8 :=
  rfl

lemma foldl_compress_length (bs : List (List Nat)) (hs : List Nat)
    (h : hs.length = 8) : (bs.foldl compress hs).length = 8 := by
  induction bs generalizing hs with
  | nil => exact h
  | cons b rest ih => exact ih _ (compress_length hs b)

lemma flatMap_beBytes4_length (l : List Nat) :
    (l.flatMap (beBytes 4)).length = 4 * l.length := by
  induction l with
  | nil => rfl
  | cons a t ih =>
      rw [List.flatMap_cons, List.length_append, beBytes_length, ih,
        List.length_cons]
      omega

lemma shaH0_length : shaH0.length = 8 := rfl

lemma sha256_length (msg : List Nat) : (sha256 msg).length = 32 := by
  simp only [sha256]
  rw [flatMap_beBytes4_length, foldl_compress_length _ shaH0 shaH0_length]

lemma foldl_append_length (l : List String) (s : String) :
    (l.foldl (· ++ ·) s).length = s.length + (l.map String.length).sum := by
  induction l generalizing s with
  | nil => simp
  | cons a rest ih =>
      simp only [List.foldl_cons, ih, String.length_append, List.map_cons,
        List.sum_cons]
      omega

lemma sum_map_length_byteHex (bs : List Nat) :
    ((bs.map byteHex).map String.length).sum = 2 * bs.length := by
  induction bs with
  | nil => rfl
  | cons a t ih =>
      simp only [List.map_cons, List.sum_cons, ih, List.length_cons]
      have h2 : (byteHex a).length = 2 := rfl
      omega

lemma bytesToHex_length (bs : List Nat) :
    (bytesToHex bs).length = 2 * bs.length := by
  unfold bytesToHex String.join
  rw [foldl_append_length, sum_map_length_byteHex]
  have h0 : ("" : String).length = 0 := rfl
  omega

lemma hmacSha256Hex_length (k m : String) : (hmacSha256Hex k m).length = 64 := by
  unfold hmacSha256Hex
  rw [bytesToHex_length]
  unfold hmacSha256
  rw [sha256_length]

lemma verify_payment_expected_sig (S O P now : String) (store : Store) :
    verify_payment S ⟨O, P, hmacSha256Hex S (O ++ "|" ++ P)⟩ now store =
      (store.map (markPaid ⟨O, P, hmacSha256Hex S (O ++ "|" ++ P)⟩ now),
       .ok { status := "verified", payment_id := P }) := by
  simp [verify_payment, compare_digest]

lemma markPaid_eq_of_ne (req : VerifyPaymentRequest) (now : String)
    (r : OrderRow) (h : r.razorpay_order_id ≠ req.razorpay_order_id) :
    markPaid req now r = r := by
  simp [markPaid, h]

lemma markPaid_eq_of_match (req : VerifyPaymentRequest) (now : String)
    (r : OrderRow) (h : r.razorpay_order_id = req.razorpay_order_id) :
    markPaid req now r =
      { r with razorpay_payment_id := some req.razorpay_payment_id,
               razorpay_signature := some req.razorpay_signature,
               status := "paid", verified_at := some now } := by
  simp [markPaid, h]

set_option maxHeartbeats 1000000 in
lemma verify_ok_mem (S O P now : String) (store : Store) (r : OrderRow)
    (hr : r ∈ store) (hid : r.razorpay_order_id = O) :
    (verify_payment S ⟨O, P, hmacSha256Hex S (O ++ "|" ++ P)⟩ now store).2 =
      .ok { status := "verified", payment_id := P } ∧
    ({ r with razorpay_payment_id := some P,
              razorpay_signature := some (hmacSha256Hex S (O ++ "|" ++ P)),
              status := "paid", verified_at := some now } : OrderRow)
      ∈ (verify_payment S ⟨O, P, hmacSha256Hex S (O ++ "|" ++ P)⟩ now store).1 := by
  rw [verify_payment_expected_sig]
  refine ⟨rfl, ?_⟩
  have := List.mem_map_of_mem (markPaid ⟨O, P, hmacSha256Hex S (O ++ "|" ++ P)⟩ now) hr
  rwa [markPaid_eq_of_match _ _ _ hid] at this

/-! ## Claims -/

/-- C2: for every secret `S`, order id `O` and payment id `P`, `verify_payment`
computes the expected signature as the hex of `HMAC_SHA256(S, O ++ "|" ++ P)`,
and a caller supplying exactly that hex string gets back
`{status := "verified", payment_id := P}` (the store gets the signature-valid
UPDATE applied). -/
theorem verify_payment_accepts_expected_signature
    (S O P now : String) (store : Store) :
    verify_payment S ⟨O, P, hmacSha256Hex S (O ++ "|" ++ P)⟩ now store =
      (store.map (markPaid ⟨O, P, hmacSha256Hex S (O ++ "|" ++ P)⟩ now),
       .ok { status := "verified", payment_id := P }) := by
  simp [verify_payment, compare_digest]

/-- C1, as stated, is false: with a correct signature for an order id that is
not in the store, `verify_payment` does not fail with a not-found error — the
UPDATE matches no rows, no row count is checked, and the success body is
returned.  Concrete run on the empty store. -/
theorem verify_payment_unknown_order_counterexample :
    verify_payment "secret"
        ⟨"order_x", "pay_1", hmacSha256Hex "secret" ("order_x" ++ "|" ++ "pay_1")⟩
        "2026-01-01T00:00:00" [] =
      ([], .ok { status := "verified", payment_id := "pay_1" }) := by
  simp [verify_payment, compare_digest]

/-- C1 (amended): for every `verify_payment` call whose supplied signature
matches the expected signature but whose order id identifies no stored order,
the store is left unchanged, and the call returns the success body
`{status := "verified", payment_id := P}` rather than failing with a
not-found error. -/
theorem verify_payment_unknown_order_succeeds
    (S O P now : String) (store : Store)
    (h : ∀ r ∈ store, r.razorpay_order_id ≠ O) :
    verify_payment S ⟨O, P, hmacSha256Hex S (O ++ "|" ++ P)⟩ now store =
      (store, .ok { status := "verified", payment_id := P }) := by
  rw [verify_payment_expected_sig]
  have hmap : store.map (markPaid ⟨O, P, hmacSha256Hex S (O ++ "|" ++ P)⟩ now)
      = store := by
    conv_rhs => rw [← List.map_id store]
    apply List.map_congr_left
    intro r hr
    exact markPaid_eq_of_ne _ _ _ (h r hr)
  rw [hmap]

/-- Witness for the C1 amended theorem: a store holding one unrelated order. -/
theorem verify_payment_unknown_order_succeeds_witness :
    verify_payment "secret"
        ⟨"order_y", "pay_9", hmacSha256Hex "secret" ("order_y" ++ "|" ++ "pay_9")⟩
        "t1" [] =
      ([], .ok { status := "verified", payment_id := "pay_9" }) :=
  verify_payment_unknown_order_succeeds "secret" "order_y" "pay_9" "t1" []
    (by simp)

/-- C3: a supplied signature different from the expected one makes
`verify_payment` fail with the 400 verification error, leaves the store — so
every order row — exactly as it was, and the error detail carried to the
caller never contains the expected signature value: the detail is a fixed
47-character message, while the hex signature is 64 characters, so it cannot
occur inside it. -/
theorem verify_payment_rejects_bad_signature
    (S now : String) (req : VerifyPaymentRequest) (store : Store)
    (h : req.razorpay_signature ≠
      hmacSha256Hex S (req.razorpay_order_id ++ "|" ++ req.razorpay_payment_id)) :
    verify_payment S req now store =
      (store, .error ⟨400, "Payment verification failed — invalid signature"⟩) ∧
    ∀ pre post : String,
      "Payment verification failed — invalid signature" ≠
        pre ++ hmacSha256Hex S
          (req.razorpay_order_id ++ "|" ++ req.razorpay_payment_id) ++ post := by
  have hc : compare_digest
      (hmacSha256Hex S (req.razorpay_order_id ++ "|" ++ req.razorpay_payment_id))
      req.razorpay_signature = false := by
    unfold compare_digest
    rw [beq_eq_false_iff_ne]
    exact fun hh => h hh.symm
  constructor
  · simp [verify_payment, hc]
  · intro pre post heq
    have hl := congrArg String.length heq
    rw [String.length_append, String.length_append, hmacSha256Hex_length] at hl
    have h47 : ("Payment verification failed — invalid signature").length = 47 :=
      rfl
    omega

/-- Witness for C3: the spec's vector with the wrong signature "bad"
(discharged by length: the expected signature has 64 characters). -/
theorem verify_payment_rejects_bad_signature_witness :
    verify_payment "secret" ⟨"order_1", "pay_1", "bad"⟩ "t2" [] =
      ([], .error ⟨400, "Payment verification failed — invalid signature"⟩) :=
  (verify_payment_rejects_bad_signature "secret" "t2" ⟨"order_1", "pay_1", "bad"⟩
    []
    (fun hh => by
      have h64 := hmacSha256Hex_length "secret" ("order_1" ++ "|" ++ "pay_1")
      rw [← hh] at h64
      exact absurd h64 (by decide))).1

/-- C6: `create_order` checks, in this order: gateway credentials (missing
one ⇒ the 500 configuration error), then `qty ∈ [1, 20]` (violation ⇒ the 400
validation error), then `amount > 0` (violation ⇒ the 400 validation error);
in each failure case the store is returned unchanged, so no row is
persisted. -/
theorem create_order_validation (key_id key_secret : String)
    (req : CreateOrderRequest) (gw : GatewayOutcome) (now : String)
    (store : Store) :
    (key_id = "" ∨ key_secret = "" →
      create_order key_id key_secret req gw now store =
        (store,
         .error ⟨500, "Razorpay credentials missing in environment variables"⟩)) ∧
    (key_id ≠ "" → key_secret ≠ "" → req.qty < 1 ∨ 20 < req.qty →
      create_order key_id key_secret req gw now store =
        (store, .error ⟨400, "Quantity must be between 1 and 20"⟩)) ∧
    (key_id ≠ "" → key_secret ≠ "" → 1 ≤ req.qty → req.qty ≤ 20 →
      req.amount_paise ≤ 0 →
      create_order key_id key_secret req gw now store =
        (store, .error ⟨400, "Invalid amount"⟩)) := by
  refine ⟨?_, ?_, ?_⟩
  · rintro (h | h) <;> simp [create_order, h]
  · intro h1 h2 h3
    rcases h3 with h3 | h3 <;>
      simp [create_order, h1, h2, h3, Int.not_lt.mpr (le_of_lt h3)]
  · intro h1 h2 hq1 hq2 ha
    simp [create_order, h1, h2, Int.not_lt.mpr hq1, Int.not_lt.mpr hq2, ha]

/-- Witness for C6: a missing key id gives the 500; qty 0 and qty 21 give the
qty 400; amount 0 gives the amount 400 — all with no row persisted. -/
theorem create_order_validation_witness :
    create_order "" "sec" ⟨"Coffee", 2, 50000, "A", "a@b.c", "9", "addr"⟩
        (.exn "down") "t3" [] =
      ([], .error ⟨500, "Razorpay credentials missing in environment variables"⟩) ∧
    create_order "rzp_test" "sec" ⟨"Coffee", 0, 50000, "A", "a@b.c", "9", "addr"⟩
        (.exn "down") "t3" [] =
      ([], .error ⟨400, "Quantity must be between 1 and 20"⟩) ∧
    create_order "rzp_test" "sec" ⟨"Coffee", 21, 50000, "A", "a@b.c", "9", "addr"⟩
        (.exn "down") "t3" [] =
      ([], .error ⟨400, "Quantity must be between 1 and 20"⟩) ∧
    create_order "rzp_test" "sec" ⟨"Coffee", 2, 0, "A", "a@b.c", "9", "addr"⟩
        (.exn "down") "t3" [] =
      ([], .error ⟨400, "Invalid amount"⟩) :=
  ⟨(create_order_validation "" "sec" ⟨"Coffee", 2, 50000, "A", "a@b.c", "9", "addr"⟩
      (.exn "down") "t3" []).1 (Or.inl rfl),
   (create_order_validation "rzp_test" "sec"
      ⟨"Coffee", 0, 50000, "A", "a@b.c", "9", "addr"⟩ (.exn "down") "t3" []).2.1
      (by decide) (by decide) (Or.inl (by decide)),
   (create_order_validation "rzp_test" "sec"
      ⟨"Coffee", 21, 50000, "A", "a@b.c", "9", "addr"⟩ (.exn "down") "t3" []).2.1
      (by decide) (by decide) (Or.inr (by decide)),
   (create_order_validation "rzp_test" "sec"
      ⟨"Coffee", 2, 0, "A", "a@b.c", "9", "addr"⟩ (.exn "down") "t3" []).2.2
      (by decide) (by decide) (by decide) (by decide) (by decide)⟩

/-- C7: with valid input and configured credentials, a gateway HTTP response
with a non-200 status makes `create_order` fail with the 502 upstream error
carrying the gateway's body text, and a raised gateway exception with the 502
error carrying its message; in both cases the store is returned unchanged, so
no order row is inserted. -/
theorem create_order_upstream_failure (key_id key_secret : String)
    (req : CreateOrderRequest) (now : String) (store : Store)
    (h1 : key_id ≠ "") (h2 : key_secret ≠ "") (hq1 : 1 ≤ req.qty)
    (hq2 : req.qty ≤ 20) (ha : 0 < req.amount_paise) :
    (∀ code text oid, code ≠ 200 →
      create_order key_id key_secret req (.response code text oid) now store =
        (store, .error ⟨502, "Razorpay error: " ++ text⟩)) ∧
    (∀ msg,
      create_order key_id key_secret req (.exn msg) now store =
        (store, .error ⟨502, "Razorpay order creation failed: " ++ msg⟩)) := by
  have hna : ¬ req.amount_paise ≤ 0 := by omega
  constructor
  · intro code text oid hcode
    simp [create_order, h1, h2, Int.not_lt.mpr hq1, Int.not_lt.mpr hq2, hna,
      hcode]
  · intro msg
    simp [create_order, h1, h2, Int.not_lt.mpr hq1, Int.not_lt.mpr hq2, hna]

/-- Witness for C7: a 502-with-body gateway response and a gateway exception,
each leaving the one-row store untouched. -/
theorem create_order_upstream_failure_witness :
    create_order "rzp_test" "sec" ⟨"Coffee", 2, 50000, "A", "a@b.c", "9", "addr"⟩
        (.response 401 "auth failed" "") "t4" [] =
      ([], .error ⟨502, "Razorpay error: " ++ "auth failed"⟩) ∧
    create_order "rzp_test" "sec" ⟨"Coffee", 2, 50000, "A", "a@b.c", "9", "addr"⟩
        (.exn "connection refused") "t4" [] =
      ([], .error ⟨502, "Razorpay order creation failed: " ++ "connection refused"⟩) :=
  ⟨(create_order_upstream_failure "rzp_test" "sec"
      ⟨"Coffee", 2, 50000, "A", "a@b.c", "9", "addr"⟩ "t4" []
      (by decide) (by decide) (by decide) (by decide) (by decide)).1
      401 "auth failed" "" (by decide),
   (create_order_upstream_failure "rzp_test" "sec"
      ⟨"Coffee", 2, 50000, "A", "a@b.c", "9", "addr"⟩ "t4" []
      (by decide) (by decide) (by decide) (by decide) (by decide)).2
      "connection refused"⟩

/-- C9: inserting a second order whose `razorpay_order_id` already exists
fails with the UNIQUE-constraint integrity error (the store contract's
conflict error) and leaves the store — in particular the first row, with all
its fields — untouched. -/
theorem insertOrder_conflict (store : Store) (r : OrderRow)
    (req : CreateOrderRequest) (now : String) (hr : r ∈ store) :
    insertOrder store r.razorpay_order_id req now =
      (store, .error .integrityError) ∧
    r ∈ (insertOrder store r.razorpay_order_id req now).1 := by
  have hc : (store.any fun q => q.razorpay_order_id == r.razorpay_order_id)
      = true := by
    rw [List.any_eq_true]
    exact ⟨r, hr, by simp⟩
  refine ⟨by simp [insertOrder, hc], ?_⟩
  simpa [insertOrder, hc] using hr

/-- Witness for C9: re-inserting `order_1` into a store already holding it. -/
theorem insertOrder_conflict_witness :
    insertOrder
        [⟨1, "order_1", none, none, "Coffee", 2, 50000, "A", "a@b.c", "9",
          "addr", "created", "t0", none⟩]
        "order_1" ⟨"Tea", 3, 900, "B", "b@c.d", "8", "addr2"⟩ "t5" =
      ([⟨1, "order_1", none, none, "Coffee", 2, 50000, "A", "a@b.c", "9",
          "addr", "created", "t0", none⟩], .error .integrityError) :=
  (insertOrder_conflict
    [⟨1, "order_1", none, none, "Coffee", 2, 50000, "A", "a@b.c", "9",
      "addr", "created", "t0", none⟩]
    ⟨1, "order_1", none, none, "Coffee", 2, 50000, "A", "a@b.c", "9",
      "addr", "created", "t0", none⟩
    ⟨"Tea", 3, 900, "B", "b@c.d", "8", "addr2"⟩ "t5"
    (List.mem_singleton.mpr rfl)).1

/-- C8: a stored order in status `created` whose id is verified with the
expected signature: the call answers `{status := "verified", payment_id := P}`
and the store afterwards holds the row with status `paid`, `verified_at` set
to the verification time, and the supplied payment id and signature. -/
theorem verify_payment_marks_paid (S O P now : String) (store : Store)
    (r : OrderRow) (hr : r ∈ store) (hid : r.razorpay_order_id = O)
    (_hst : r.status = "created") :
    (verify_payment S ⟨O, P, hmacSha256Hex S (O ++ "|" ++ P)⟩ now store).2 =
      .ok { status := "verified", payment_id := P } ∧
    ({ r with razorpay_payment_id := some P,
              razorpay_signature := some (hmacSha256Hex S (O ++ "|" ++ P)),
              status := "paid", verified_at := some now } : OrderRow)
      ∈ (verify_payment S ⟨O, P, hmacSha256Hex S (O ++ "|" ++ P)⟩ now store).1 :=
  verify_ok_mem S O P now store r hr hid

/-- Witness for C8: one created order, verified with its expected signature. -/
theorem verify_payment_marks_paid_witness :
    (verify_payment "secret"
        ⟨"order_1", "pay_1", hmacSha256Hex "secret" ("order_1" ++ "|" ++ "pay_1")⟩
        "t6"
        [⟨1, "order_1", none, none, "Coffee", 2, 50000, "A", "a@b.c", "9",
          "addr", "created", "t0", none⟩]).2 =
      .ok { status := "verified", payment_id := "pay_1" } ∧
    (⟨1, "order_1", some "pay_1",
       some (hmacSha256Hex "secret" ("order_1" ++ "|" ++ "pay_1")), "Coffee", 2,
       50000, "A", "a@b.c", "9", "addr", "paid", "t0", some "t6"⟩ : OrderRow)
      ∈ (verify_payment "secret"
        ⟨"order_1", "pay_1", hmacSha256Hex "secret" ("order_1" ++ "|" ++ "pay_1")⟩
        "t6"
        [⟨1, "order_1", none, none, "Coffee", 2, 50000, "A", "a@b.c", "9",
          "addr", "created", "t0", none⟩]).1 :=
  verify_payment_marks_paid "secret" "order_1" "pay_1" "t6"
    [⟨1, "order_1", none, none, "Coffee", 2, 50000, "A", "a@b.c", "9",
      "addr", "created", "t0", none⟩]
    ⟨1, "order_1", none, none, "Coffee", 2, 50000, "A", "a@b.c", "9",
      "addr", "created", "t0", none⟩
    (List.mem_singleton.mpr rfl) rfl rfl

/-- C10: an already-paid order is never rejected by `verify_payment`: a new
call with a valid signature succeeds again and overwrites the stored payment
id, signature and verification time with the newly supplied values
(last-writer-wins). -/
theorem verify_payment_overwrites_paid (S O P now : String) (store : Store)
    (r : OrderRow) (hr : r ∈ store) (hid : r.razorpay_order_id = O)
    (_hst : r.status = "paid") :
    (verify_payment S ⟨O, P, hmacSha256Hex S (O ++ "|" ++ P)⟩ now store).2 =
      .ok { status := "verified", payment_id := P } ∧
    ({ r with razorpay_payment_id := some P,
              razorpay_signature := some (hmacSha256Hex S (O ++ "|" ++ P)),
              status := "paid", verified_at := some now } : OrderRow)
      ∈ (verify_payment S ⟨O, P, hmacSha256Hex S (O ++ "|" ++ P)⟩ now store).1 :=
  verify_ok_mem S O P now store r hr hid

/-- Witness for C10: a paid order re-verified with a second payment id and a
later timestamp; the stored row carries the new values. -/
theorem verify_payment_overwrites_paid_witness :
    (verify_payment "secret"
        ⟨"order_1", "pay_2", hmacSha256Hex "secret" ("order_1" ++ "|" ++ "pay_2")⟩
        "t8"
        [⟨1, "order_1", some "pay_1", some "oldsig", "Coffee", 2, 50000, "A",
          "a@b.c", "9", "addr", "paid", "t0", some "t6"⟩]).2 =
      .ok { status := "verified", payment_id := "pay_2" } ∧
    (⟨1, "order_1", some "pay_2",
       some (hmacSha256Hex "secret" ("order_1" ++ "|" ++ "pay_2")), "Coffee", 2,
       50000, "A", "a@b.c", "9", "addr", "paid", "t0", some "t8"⟩ : OrderRow)
      ∈ (verify_payment "secret"
        ⟨"order_1", "pay_2", hmacSha256Hex "secret" ("order_1" ++ "|" ++ "pay_2")⟩
        "t8"
        [⟨1, "order_1", some "pay_1", some "oldsig", "Coffee", 2, 50000, "A",
          "a@b.c", "9", "addr", "paid", "t0", some "t6"⟩]).1 :=
  verify_payment_overwrites_paid "secret" "order_1" "pay_2" "t8"
    [⟨1, "order_1", some "pay_1", some "oldsig", "Coffee", 2, 50000, "A",
      "a@b.c", "9", "addr", "paid", "t0", some "t6"⟩]
    ⟨1, "order_1", some "pay_1", some "oldsig", "Coffee", 2, 50000, "A",
      "a@b.c", "9", "addr", "paid", "t0", some "t6"⟩
    (List.mem_singleton.mpr rfl) rfl rfl

/-! ## C5: invariant machinery -/

lemma rowInv_newRow (store : Store) (oid : String) (req : CreateOrderRequest)
    (now : String) : rowInv (newRow store oid req now) = true := rfl

lemma rowInv_markPaid (req : VerifyPaymentRequest) (now : String)
    (r : OrderRow) (h : rowInv r = true) :
    rowInv (markPaid req now r) = true := by
  unfold markPaid
  split
  · rfl
  · exact h

lemma markPaid_status_paid (req : VerifyPaymentRequest) (now : String)
    (r : OrderRow) (h : r.status = "paid") :
    (markPaid req now r).status = "paid" := by
  unfold markPaid
  split
  · rfl
  · exact h

lemma insertOrder_fst (store : Store) (oid : String) (req : CreateOrderRequest)
    (now : String) :
    (insertOrder store oid req now).1 = store ∨
    (insertOrder store oid req now).1 = store ++ [newRow store oid req now] := by
  unfold insertOrder
  split
  · exact Or.inl rfl
  · exact Or.inr rfl

lemma create_order_fst (key_id key_secret : String) (req : CreateOrderRequest)
    (gw : GatewayOutcome) (now : String) (store : Store) :
    (create_order key_id key_secret req gw now store).1 = store ∨
    ∃ oid, (create_order key_id key_secret req gw now store).1 =
      store ++ [newRow store oid req now] := by
  unfold create_order
  split
  · exact Or.inl rfl
  split
  · exact Or.inl rfl
  split
  · exact Or.inl rfl
  cases gw with
  | exn msg => exact Or.inl rfl
  | response code text oid =>
      simp only []
      split
      · exact Or.inl rfl
      · rcases h : insertOrder store oid req now with ⟨store1, e⟩
        have hfst := insertOrder_fst store oid req now
        rw [h] at hfst
        cases e with
        | ok n =>
            simp only []
            rcases hfst with hfst | hfst
            · exact Or.inl hfst
            · exact Or.inr ⟨oid, hfst⟩
        | error e =>
            simp only []
            rcases hfst with hfst | hfst
            · exact Or.inl hfst
            · exact Or.inr ⟨oid, hfst⟩

lemma verify_payment_fst (S : String) (req : VerifyPaymentRequest)
    (now : String) (store : Store) :
    (verify_payment S req now store).1 = store ∨
    (verify_payment S req now store).1 = store.map (markPaid req now) := by
  simp only [verify_payment]
  split
  · exact Or.inr rfl
  · exact Or.inl rfl

lemma step_preserves_inv {s s' : Store} (h : storeInv s = true)
    (hs : Step s s') : storeInv s' = true := by
  cases hs with
  | create key_id key_secret req gw now =>
      rcases create_order_fst key_id key_secret req gw now s with h1 | ⟨oid, h1⟩ <;>
        rw [h1]
      · exact h
      · rw [storeInv, List.all_eq_true] at h ⊢
        intro r hrmem
        rcases List.mem_append.mp hrmem with hm | hm
        · exact h r hm
        · rw [List.mem_singleton.mp hm]
          exact rowInv_newRow s oid req now
  | verify key_secret req now =>
      rcases verify_payment_fst key_secret req now s with h1 | h1 <;> rw [h1]
      · exact h
      · rw [storeInv, List.all_eq_true] at h ⊢
        intro r hrmem
        rcases List.mem_map.mp hrmem with ⟨q, hq, rfl⟩
        exact rowInv_markPaid req now q (h q hq)

lemma reachable_inv {s : Store} (h : Reachable s) : storeInv s = true := by
  induction h with
  | init => rfl
  | step _ hstep ih => exact step_preserves_inv ih hstep

/-- C5: every reachable store satisfies the row invariant — each row's status
is `created` or `paid`, and a paid row has non-null payment id, signature and
verification time — and no operation moves a row's status off `paid`: after
any mutating step (`create_order` or `verify_payment`; `list_orders` and
`get_order` are read-only functions of the store), a row that was paid is
still present at its position and still paid. -/
theorem orders_status_invariant (s s' : Store) (hr : Reachable s)
    (hstep : Step s s') :
    storeInv s = true ∧
    ∀ i (hi : i < s.length), (s.get ⟨i, hi⟩).status = "paid" →
      ∃ hj : i < s'.length, (s'.get ⟨i, hj⟩).status = "paid" := by
  refine ⟨reachable_inv hr, ?_⟩
  intro i hi hpaid
  cases hstep with
  | create key_id key_secret req gw now =>
      rcases create_order_fst key_id key_secret req gw now s with h1 | ⟨oid, h1⟩ <;>
        rw [h1]
      · exact ⟨hi, hpaid⟩
      · have hj : i < (s ++ [newRow s oid req now]).length := by
          rw [List.length_append]
          omega
        refine ⟨hj, ?_⟩
        have hg : (s ++ [newRow s oid req now]).get ⟨i, hj⟩ = s.get ⟨i, hi⟩ := by
          rw [List.get_eq_getElem, List.get_eq_getElem,
            List.getElem_append_left]
        rw [hg]
        exact hpaid
  | verify key_secret req now =>
      rcases verify_payment_fst key_secret req now s with h1 | h1 <;> rw [h1]
      · exact ⟨hi, hpaid⟩
      · have hj : i < (s.map (markPaid req now)).length := by
          rw [List.length_map]
          exact hi
        refine ⟨hj, ?_⟩
        have hg : (s.map (markPaid req now)).get ⟨i, hj⟩ =
            markPaid req now (s.get ⟨i, hi⟩) := by
          simp [List.get_eq_getElem]
        rw [hg]
        exact markPaid_status_paid req now _ hpaid

/-- Witness for C5: the store reached by one successful `create_order` from
the empty table, stepped by a `verify_payment`. -/
theorem orders_status_invariant_witness :
    storeInv (create_order "rzp_test" "secret"
        ⟨"Coffee", 2, 50000, "A", "a@b.c", "9", "addr"⟩
        (.response 200 "ok" "order_1") "t0" []).1 = true ∧
    ∀ i (hi : i < (create_order "rzp_test" "secret"
        ⟨"Coffee", 2, 50000, "A", "a@b.c", "9", "addr"⟩
        (.response 200 "ok" "order_1") "t0" []).1.length),
      ((create_order "rzp_test" "secret"
        ⟨"Coffee", 2, 50000, "A", "a@b.c", "9", "addr"⟩
        (.response 200 "ok" "order_1") "t0" []).1.get ⟨i, hi⟩).status = "paid" →
      ∃ hj : i < (verify_payment "secret"
          ⟨"order_1", "pay_1", hmacSha256Hex "secret" ("order_1" ++ "|" ++ "pay_1")⟩
          "t6"
          (create_order "rzp_test" "secret"
            ⟨"Coffee", 2, 50000, "A", "a@b.c", "9", "addr"⟩
            (.response 200 "ok" "order_1") "t0" []).1).1.length,
        ((verify_payment "secret"
          ⟨"order_1", "pay_1", hmacSha256Hex "secret" ("order_1" ++ "|" ++ "pay_1")⟩
          "t6"
          (create_order "rzp_test" "secret"
            ⟨"Coffee", 2, 50000, "A", "a@b.c", "9", "addr"⟩
            (.response 200 "ok" "order_1") "t0" []).1).1.get ⟨i, hj⟩).status =
          "paid" :=
  orders_status_invariant _ _
    (Reachable.step Reachable.init
      (Step.create "rzp_test" "secret"
        ⟨"Coffee", 2, 50000, "A", "a@b.c", "9", "addr"⟩
        (.response 200 "ok" "order_1") "t0" []))
    (Step.verify "secret"
      ⟨"order_1", "pay_1", hmacSha256Hex "secret" ("order_1" ++ "|" ++ "pay_1")⟩
      "t6" _)

end Myco
